import Mathlib

/-!
Shallow embedding of the `health` Go package (andres-vara/health).

The repository contains two parallel implementations of the same surface:
`src/health.go` (package-level state guarded by one RWMutex, handler type
`HealthHandler` with `ServeHTTP`) and `src/unnamed/part_000` (a singleton
`healthHandler` struct, the shared render path `getStatus`, and the
shttp-adapter functions `HealthHandler`/`JSONHealthHandler`).  They are
embedded here in namespaces `HealthGo` and `Part000` respectively.

Go strings are Lean `String`s; the `Status` string type is `String`;
mutation of the shared state is explicit state passing; each
lock-protected critical section of the Go code is one atomic step of the
trace model used for the concurrency claims.
-/

/-- Status value `Up` (`"UP"`), defined identically in both source files. -/
def Up : String := "UP"

/-- Status value `Down` (`"DOWN"`), defined identically in both source files. -/
def Down : String := "DOWN"

/-- Model of Go's `net/http` response writer, restricted to what the
handlers use.  `headers` are the headers as actually transmitted on the
wire: in `net/http`, mutating the header map after `WriteHeader` has been
called has no effect on the response, so `setHeader` after commit is a
no-op here.  `code` is the transmitted status code. -/
structure RespWriter where
  headers : List (String × String)
  committed : Bool
  code : Nat
  body : String
deriving DecidableEq

/-- The writer before the handler has done anything. -/
def emptyWriter : RespWriter := ⟨[], false, 0, ""⟩

/-- Model of `w.Header().Set(k, v)`: replaces any existing header `k`;
has no transmitted effect once the status line has been written. -/
def setHeader (w : RespWriter) (k v : String) : RespWriter :=
  if w.committed then w
  else { w with headers := (k, v) :: w.headers.filter (fun p => p.1 ≠ k) }

/-- Model of `w.WriteHeader(c)`: commits the status code; a second call
is ignored (net/http logs and drops superfluous calls). -/
def writeHeader (w : RespWriter) (c : Nat) : RespWriter :=
  if w.committed then w else { w with committed := true, code := c }

/-- Model of `w.Write(b)`: commits with 200 if not yet committed, and
appends to the body. -/
def write (w : RespWriter) (b : String) : RespWriter :=
  let w' := if w.committed then w else { w with committed := true, code := 200 }
  { w' with body := w'.body ++ b }

/-- Look a header up in a transmitted header list (first match wins;
`setHeader` keeps at most one entry per key). -/
def lookupHeader (hs : List (String × String)) (k : String) : Option String :=
  (hs.find? (fun p => p.1 == k)).map Prod.snd

/-- Lowercase hex digit, as used by `encoding/json`'s escaper. -/
def hexDigit (n : Nat) : Char :=
  if n < 10 then Char.ofNat (48 + n) else Char.ofNat (87 + n)

/-- Escape one character the way Go's `encoding/json` (with default
HTML escaping, as used by `json.Marshal` / `json.NewEncoder`) escapes it
inside a JSON string literal. -/
def escChar (c : Char) : String :=
  if c = '"' then "\\\""
  else if c = '\\' then "\\\\"
  else if c = '<' then "\\u003c"
  else if c = '>' then "\\u003e"
  else if c = '&' then "\\u0026"
  else if c = '\n' then "\\n"
  else if c = '\r' then "\\r"
  else if c = '\t' then "\\t"
  else if c.toNat < 32 then
    "\\u00" ++ String.singleton (hexDigit (c.toNat / 16)) ++ String.singleton (hexDigit (c.toNat % 16))
  else if c.toNat = 0x2028 then "\\u2028"
  else if c.toNat = 0x2029 then "\\u2029"
  else String.singleton c

/-- Escape a whole string for inclusion in a JSON string literal. -/
def escStr (s : String) : String := String.join (s.data.map escChar)

/-- Model of `json.Marshal` applied to the two-field response struct
(`Response` in health.go, `responseBody` in part_000: field `status`,
then field `reason` with the `omitempty` option, which omits the field
exactly when the string is empty). -/
def marshalResponseBody (status reason : String) : String :=
  "\x7b\"status\":\"" ++ escStr status ++ "\"" ++
    (if reason = "" then "" else ",\"reason\":\"" ++ escStr reason ++ "\"") ++ "\x7d"

namespace HealthGo

/-- The package-level state of `src/health.go`: `currentStatus` and
`currentReason`, jointly guarded by the RWMutex `mu`. -/
structure State where
  status : String
  reason : String
deriving DecidableEq

/-- Embeds `SetHealthy` of health.go: one critical section setting
`currentStatus = Up; currentReason = ""`. -/
def SetHealthy (_ : State) : State := ⟨Up, ""⟩

/-- Embeds `SetUnhealthy` of health.go: one critical section setting
`currentStatus = Down; currentReason = reason`. -/
def SetUnhealthy (reason : String) (_ : State) : State := ⟨Down, reason⟩

/-- Embeds `SetStatus` of health.go. -/
def SetStatus (status : String) (st : State) : State := { st with status := status }

/-- Embeds `SetReason` of health.go. -/
def SetReason (reason : String) (st : State) : State := { st with reason := reason }

/-- Embeds `GetStatus` of health.go. -/
def GetStatus (st : State) : String := st.status

/-- Embeds `GetReason` of health.go. -/
def GetReason (st : State) : String := st.reason

/-- Embeds `(*HealthHandler).ServeHTTP` of health.go, with the handler's
`useJSON` field as first argument and the state snapshot read under the
read lock as second.  The source calls `w.WriteHeader` first, then builds
the response, then sets `Content-Type` and writes the body; the JSON
branch uses `json.NewEncoder(w).Encode`, which appends a newline. -/
def ServeHTTP (useJSON : Bool) (st : State) : RespWriter :=
  let status := st.status
  let reason := st.reason
  let w := emptyWriter
  let w := if status = Down then writeHeader w 503 else writeHeader w 200
  let responseReason := if status = Down ∧ reason ≠ "" then reason else ""
  if useJSON then
    let w := setHeader w "Content-Type" "application/json"
    write w (marshalResponseBody status responseReason ++ "\n")
  else
    let w := setHeader w "Content-Type" "text/plain"
    if status = Down ∧ reason ≠ "" then
      write w (status ++ ": " ++ reason)
    else
      write w status

end HealthGo

namespace Part000

/-- The fields of the singleton `healthHandler` struct of part_000
(`status`, `reason`, `useJSON`), guarded by its RWMutex `mutex`. -/
structure HState where
  status : String
  reason : String
  useJSON : Bool
deriving DecidableEq

/-- Embeds `SetStatus` of part_000: one critical section writing
`handler.status`. -/
def SetStatus (status : String) (h : HState) : HState := { h with status := status }

/-- Embeds `SetReason` of part_000: one critical section writing
`handler.reason`. -/
def SetReason (reason : String) (h : HState) : HState := { h with reason := reason }

/-- Embeds `GetStatus` of part_000. -/
def GetStatus (h : HState) : String := h.status

/-- Embeds `GetReason` of part_000. -/
def GetReason (h : HState) : String := h.reason

/-- Embeds `SetHealthy` of part_000: `SetStatus(Up)` followed by
`SetReason("")` — two separate critical sections. -/
def SetHealthy (h : HState) : HState := SetReason "" (SetStatus Up h)

/-- Embeds `SetUnhealthy` of part_000: `SetStatus(Down)` followed by
`SetReason(reason)` — two separate critical sections. -/
def SetUnhealthy (reason : String) (h : HState) : HState := SetReason reason (SetStatus Down h)

/-- Embeds `(*healthHandler).getStatus` of part_000: returns
`(statusCode, body, useJSON)` from one locked snapshot.  The plain-text
body is always `status ++ ": " ++ reason`; the status code is 200 iff
`status == Up`, else 503. -/
def getStatus (h : HState) : Nat × String × Bool :=
  let status := h.status
  let reason := h.reason
  let useJSON := h.useJSON
  let body := if useJSON then marshalResponseBody status reason
    else status ++ ": " ++ reason
  let statusCode := if status = Up then 200 else 503
  (statusCode, body, useJSON)

/-- Embeds `(*healthHandler).ServeHTTP` of part_000: sets `Content-Type`
only in JSON mode, then writes the status line, then the body. -/
def ServeHTTP (h : HState) : RespWriter :=
  let r := getStatus h
  let w := emptyWriter
  let w := if r.2.2 then setHeader w "Content-Type" "application/json" else w
  let w := writeHeader w r.1
  write w r.2.1

/-- Dynamic value stored in a Go `context.Context`: either a string or a
value of some other type (the type assertion `.(string)` fails on it). -/
inductive DynVal where
  | str (s : String)
  | other
deriving DecidableEq

/-- Model of a request context: lookup from key to stored value.  The
handlers query only the untyped string key `"request_id"`. -/
def Ctx := String → Option DynVal

/-- Embeds the closure returned by `HealthHandler()` of part_000: render
via `getStatus`, set `Content-Type` in JSON mode, forward a non-empty
string-typed `"request_id"` context value into `X-Request-ID`, write the
status line and the body, and return `nil` (modelled as `none`). -/
def HealthHandler (ctx : Ctx) (h : HState) : RespWriter × Option String :=
  let r := getStatus h
  let w := emptyWriter
  let w := if r.2.2 then setHeader w "Content-Type" "application/json" else w
  let w := match ctx "request_id" with
    | some (DynVal.str requestID) =>
        if requestID ≠ "" then setHeader w "X-Request-ID" requestID else w
    | _ => w
  let w := writeHeader w r.1
  (write w r.2.1, none)

/-- Embeds the closure returned by `JSONHealthHandler()` of part_000:
marshal `(status, reason)` directly (always JSON), set `Content-Type`,
forward the request id like `HealthHandler`, pick 503 iff the status is
`Down` and 200 otherwise, and return `nil`. -/
def JSONHealthHandler (ctx : Ctx) (h : HState) : RespWriter × Option String :=
  let status := h.status
  let reason := h.reason
  let body := marshalResponseBody status reason
  let w := emptyWriter
  let w := setHeader w "Content-Type" "application/json"
  let w := match ctx "request_id" with
    | some (DynVal.str requestID) =>
        if requestID ≠ "" then setHeader w "X-Request-ID" requestID else w
    | _ => w
  let statusCode := if status = Down then 503 else 200
  let w := writeHeader w statusCode
  (write w body, none)

/-- One atomic step of the part_000 store: each constructor is one
lock-protected critical section (`SetStatus`, `SetReason`, or a reader's
paired `GetStatus`/`GetReason` snapshot). -/
inductive Act where
  | wStatus (s : String)
  | wReason (r : String)
  | readPair
deriving DecidableEq

/-- Execute a sequence of atomic steps, returning the final state and the
list of `(status, reason)` pairs observed by the `readPair` steps. -/
def execTrace : HState → List Act → HState × List (String × String)
  | st, [] => (st, [])
  | st, Act.wStatus s :: rest => execTrace (SetStatus s st) rest
  | st, Act.wReason r :: rest => execTrace (SetReason r st) rest
  | st, Act.readPair :: rest =>
      let res := execTrace st rest
      (res.1, (GetStatus st, GetReason st) :: res.2)

/-- The atomic steps that part_000's `SetUnhealthy(reason)` performs: it
calls `SetStatus(Down)` and then `SetReason(reason)`, taking the write
lock twice. -/
def setUnhealthySteps (reason : String) : List Act :=
  [Act.wStatus Down, Act.wReason reason]

end Part000

/-- Interleaving of two sequences of atomic steps. -/
inductive Interleaves : List Part000.Act → List Part000.Act → List Part000.Act → Prop where
  | nil : Interleaves [] [] []
  | left : ∀ {a xs ys zs}, Interleaves xs ys zs → Interleaves (a :: xs) ys (a :: zs)
  | right : ∀ {b xs ys zs}, Interleaves xs ys zs → Interleaves xs (b :: ys) (b :: zs)

/-- A call to one of the two composite setters, for sequencing claims. -/
inductive HCall where
  | healthy
  | unhealthy (r : String)
deriving DecidableEq

/-- Apply one composite-setter call to the health.go state. -/
def applyCallGo (st : HealthGo.State) (c : HCall) : HealthGo.State :=
  match c with
  | HCall.healthy => HealthGo.SetHealthy st
  | HCall.unhealthy r => HealthGo.SetUnhealthy r st

/-- Apply one composite-setter call to the part_000 state. -/
def applyCallPart (h : Part000.HState) (c : HCall) : Part000.HState :=
  match c with
  | HCall.healthy => Part000.SetHealthy h
  | HCall.unhealthy r => Part000.SetUnhealthy r h

/-- A context carrying the string `"abc"` under the `"request_id"` key. -/
def ctxWithId : Part000.Ctx :=
  fun k => if k = "request_id" then some (Part000.DynVal.str "abc") else none

/-- A context carrying nothing at all. -/
def ctxEmpty : Part000.Ctx := fun _ => none

/-- Absence of a usable request id: no non-empty string is stored under
`"request_id"` (covers absent, wrong-typed, and empty values). -/
def reqIdMissing (ctx : Part000.Ctx) : Prop :=
  ∀ s : String, s ≠ "" → ctx "request_id" ≠ some (Part000.DynVal.str s)

/-! ## Helper lemmas -/

/-- The status code transmitted by `JSONHealthHandler` does not depend on
the context: it is 503 iff the stored status is `Down`, else 200. -/
theorem jsonHealthHandler_code (ctx : Part000.Ctx) (h : Part000.HState) :
    ((Part000.JSONHealthHandler ctx h).1).code
      = if h.status = Down then 503 else 200 := by
  rcases he : ctx "request_id" with _ | v
  · simp [Part000.JSONHealthHandler, he, setHeader, writeHeader, write, emptyWriter]
  · cases v with
    | str s =>
        by_cases hs : s = "" <;>
          simp [Part000.JSONHealthHandler, he, hs, setHeader, writeHeader, write, emptyWriter]
    | other =>
        simp [Part000.JSONHealthHandler, he, setHeader, writeHeader, write, emptyWriter]

/-! ## Claim theorems -/

/-- Claim C1: part_000's `SetUnhealthy` is not atomic.  It takes the
write lock twice — once in `SetStatus(Down)`, once in `SetReason(r)` —
so the interleaving in which a reader's snapshot runs between the two
critical sections is a valid interleaving of one writer and one reader,
and that snapshot observes `(Down, "")`: the new status together with
the previous reason, a pair that is neither the state before the write
nor the state after it.  The write's full effect is therefore not one
indivisible step. -/
theorem part000_setUnhealthy_torn_read :
    Interleaves (Part000.setUnhealthySteps "db down") [Part000.Act.readPair]
      [Part000.Act.wStatus Down, Part000.Act.readPair, Part000.Act.wReason "db down"]
    ∧ (Part000.execTrace ⟨Up, "", false⟩
        [Part000.Act.wStatus Down, Part000.Act.readPair, Part000.Act.wReason "db down"]).2
      = [(Down, "")]
    ∧ ((Down, "") : String × String) ≠ (Up, "")
    ∧ ((Down, "") : String × String) ≠ (Down, "db down") :=
  ⟨Interleaves.left (Interleaves.right (Interleaves.left Interleaves.nil)),
    by decide, by decide, by decide⟩

/-- Claim C2 counterexample: with status `Up` and the non-empty reason
`"x"` — a state reachable by calling `SetReason("x")` while `Up` —
health.go's plain-text handler writes the bare body `"UP"`, not
`"UP: x"`, so the rendered body is not `"<STATUS>: <reason>"` whenever
the reason is non-empty. -/
theorem healthGo_plain_up_reason_counterexample :
    (HealthGo.ServeHTTP false ⟨Up, "x"⟩).body = "UP"
    ∧ (HealthGo.ServeHTTP false ⟨Up, "x"⟩).body ≠ Up ++ ": " ++ "x" := by
  exact ⟨by decide, by decide⟩

/-- Claim C2 (amended): in plain-text mode the part_000 render path
always produces `"<STATUS>: <reason>"` — including when status is `Up`
with a non-empty reason, and with a trailing separator when the reason is
empty — while health.go's `ServeHTTP` produces `"<STATUS>: <reason>"`
only when the status is `Down` and the reason non-empty, and the bare
`"<STATUS>"` (no separator) in every other state. -/
theorem plainText_render_amended (s r : String) :
    (Part000.getStatus ⟨s, r, false⟩).2.1 = s ++ ": " ++ r
    ∧ (s = Down → r ≠ "" → (HealthGo.ServeHTTP false ⟨s, r⟩).body = s ++ ": " ++ r)
    ∧ (s ≠ Down ∨ r = "" → (HealthGo.ServeHTTP false ⟨s, r⟩).body = s) := by
  refine ⟨by simp [Part000.getStatus], ?_, ?_⟩
  · intro hs hr
    simp [HealthGo.ServeHTTP, hs, hr, writeHeader, setHeader, write, emptyWriter,
      String.empty_append]
  · intro h
    have hc : ¬ (s = Down ∧ r ≠ "") := by tauto
    by_cases hd : s = Down
    · have hr : r = "" := by tauto
      simp [HealthGo.ServeHTTP, hc, hd, hr, writeHeader, setHeader, write, emptyWriter,
        String.empty_append]
    · simp [HealthGo.ServeHTTP, hc, hd, writeHeader, setHeader, write, emptyWriter,
        String.empty_append]

/-- Claim C2 amended, applied at `(Down, "x")` and at `(Up, "")`. -/
theorem plainText_render_amended_witness :
    (Part000.getStatus ⟨Down, "x", false⟩).2.1 = Down ++ ": " ++ "x"
    ∧ (HealthGo.ServeHTTP false ⟨Down, "x"⟩).body = Down ++ ": " ++ "x"
    ∧ (HealthGo.ServeHTTP false ⟨Up, ""⟩).body = Up :=
  ⟨(plainText_render_amended Down "x").1,
    (plainText_render_amended Down "x").2.1 rfl (by decide),
    (plainText_render_amended Up "").2.2 (Or.inr rfl)⟩

/-- Claim C3: for every reason and in both JSON and plain-text mode, the
handlers of both files send status code 200 when the stored status is
`Up` and 503 when it is `Down`. -/
theorem statusCode_mapping (r : String) (m : Bool) :
    (HealthGo.ServeHTTP m ⟨Up, r⟩).code = 200
    ∧ (HealthGo.ServeHTTP m ⟨Down, r⟩).code = 503
    ∧ (Part000.getStatus ⟨Up, r, m⟩).1 = 200
    ∧ (Part000.getStatus ⟨Down, r, m⟩).1 = 503
    ∧ (Part000.ServeHTTP ⟨Up, r, m⟩).code = 200
    ∧ (Part000.ServeHTTP ⟨Down, r, m⟩).code = 503 := by
  cases m <;> by_cases hr : r = "" <;>
    simp [HealthGo.ServeHTTP, Part000.getStatus, Part000.ServeHTTP, hr,
      writeHeader, setHeader, write, emptyWriter, Up, Down]

/-- Claim C4 counterexample: in JSON mode, at the reachable state with
status `Up` and reason `"x"`, part_000's render path produces
`{"status":"UP","reason":"x"}` rather than exactly `{"status":"UP"}`:
the reason field is not restricted to `Down` states and is not governed
by the claimed shape. -/
theorem part000_json_up_reason_counterexample :
    (Part000.getStatus ⟨Up, "x", true⟩).2.1
      = "\x7b\"status\":\"UP\",\"reason\":\"x\"\x7d"
    ∧ (Part000.getStatus ⟨Up, "x", true⟩).2.1 ≠ "\x7b\"status\":\"UP\"\x7d" := by
  exact ⟨by decide, by decide⟩

/-- Claim C4 (amended): health.go's JSON render satisfies the claimed
shape — `{"status":"UP"}` for every `Up` state (reason omitted even if
one is stored), `{"status":"DOWN","reason":"<r>"}` for `Down` with
non-empty reason, `{"status":"DOWN"}` for `Down` with empty reason —
except that the stream encoder appends a trailing newline; part_000's
JSON render instead passes the stored reason through unconditionally, so
the reason field appears whenever the reason is non-empty, regardless of
status. -/
theorem json_render_amended (r : String) :
    (HealthGo.ServeHTTP true ⟨Up, r⟩).body = marshalResponseBody Up "" ++ "\n"
    ∧ marshalResponseBody Up "" = "\x7b\"status\":\"UP\"\x7d"
    ∧ (r ≠ "" → (HealthGo.ServeHTTP true ⟨Down, r⟩).body = marshalResponseBody Down r ++ "\n")
    ∧ (HealthGo.ServeHTTP true ⟨Down, ""⟩).body = marshalResponseBody Down "" ++ "\n"
    ∧ marshalResponseBody Down "" = "\x7b\"status\":\"DOWN\"\x7d"
    ∧ (Part000.getStatus ⟨Up, r, true⟩).2.1 = marshalResponseBody Up r
    ∧ marshalResponseBody Up "x" = "\x7b\"status\":\"UP\",\"reason\":\"x\"\x7d"
    ∧ marshalResponseBody Down "db" = "\x7b\"status\":\"DOWN\",\"reason\":\"db\"\x7d" := by
  refine ⟨?_, by decide, ?_, by decide, by decide, by simp [Part000.getStatus], by decide, by decide⟩
  · simp [HealthGo.ServeHTTP, writeHeader, setHeader, write, emptyWriter, Up, Down,
      String.empty_append]
  · intro hr
    simp [HealthGo.ServeHTTP, hr, writeHeader, setHeader, write, emptyWriter, Up, Down,
      String.empty_append]

/-- Claim C4 amended, applied at reason `"x"`. -/
theorem json_render_amended_witness :
    ("x" : String) ≠ ""
    ∧ (HealthGo.ServeHTTP true ⟨Down, "x"⟩).body = marshalResponseBody Down "x" ++ "\n" :=
  ⟨by decide, (json_render_amended "x").2.2.1 (by decide)⟩

/-- Claim C5: after any finite sequence of `SetHealthy`/`SetUnhealthy`
calls ending in call `c`, from any starting state and in both files,
`GetStatus` returns `Up` if `c` was `SetHealthy` and `Down` if it was
`SetUnhealthy`, and `GetReason` returns `""` after `SetHealthy` and the
argument of the final `SetUnhealthy` otherwise. -/
theorem lastCall_determines_state (s0 : HealthGo.State) (h0 : Part000.HState)
    (cs : List HCall) (c : HCall) :
    HealthGo.GetStatus ((cs ++ [c]).foldl applyCallGo s0)
      = (match c with | HCall.healthy => Up | HCall.unhealthy _ => Down)
    ∧ HealthGo.GetReason ((cs ++ [c]).foldl applyCallGo s0)
      = (match c with | HCall.healthy => "" | HCall.unhealthy r => r)
    ∧ Part000.GetStatus ((cs ++ [c]).foldl applyCallPart h0)
      = (match c with | HCall.healthy => Up | HCall.unhealthy _ => Down)
    ∧ Part000.GetReason ((cs ++ [c]).foldl applyCallPart h0)
      = (match c with | HCall.healthy => "" | HCall.unhealthy r => r) := by
  cases c <;>
    simp [List.foldl_append, applyCallGo, applyCallPart, HealthGo.SetHealthy,
      HealthGo.SetUnhealthy, Part000.SetHealthy, Part000.SetUnhealthy,
      Part000.SetStatus, Part000.SetReason, HealthGo.GetStatus, HealthGo.GetReason,
      Part000.GetStatus, Part000.GetReason]

/-- Claim C6: in both files, `SetStatus` leaves the stored reason
unchanged and `SetReason` leaves the stored status unchanged; in
particular, `SetHealthy()` followed by `SetStatus(Down)` with no
intervening `SetReason` leaves `GetReason()` equal to `""`. -/
theorem setters_frame (st : HealthGo.State) (h : Part000.HState) (s r : String) :
    HealthGo.GetReason (HealthGo.SetStatus s st) = HealthGo.GetReason st
    ∧ HealthGo.GetStatus (HealthGo.SetReason r st) = HealthGo.GetStatus st
    ∧ HealthGo.GetReason (HealthGo.SetStatus Down (HealthGo.SetHealthy st)) = ""
    ∧ Part000.GetReason (Part000.SetStatus s h) = Part000.GetReason h
    ∧ Part000.GetStatus (Part000.SetReason r h) = Part000.GetStatus h
    ∧ Part000.GetReason (Part000.SetStatus Down (Part000.SetHealthy h)) = "" :=
  ⟨rfl, rfl, rfl, rfl, rfl, rfl⟩

/-- Claim C7: for both shttp-adapter handlers, a non-empty string stored
under the `"request_id"` context key is copied unchanged into the
`X-Request-ID` response header; when no such value exists (absent,
wrong-typed, or empty), the header is omitted; and the adapters always
return `nil` (no error). -/
theorem adapter_requestId_forwarding (ctx : Part000.Ctx) (h : Part000.HState) (id : String) :
    (ctx "request_id" = some (Part000.DynVal.str id) → id ≠ "" →
      lookupHeader ((Part000.HealthHandler ctx h).1).headers "X-Request-ID" = some id
      ∧ lookupHeader ((Part000.JSONHealthHandler ctx h).1).headers "X-Request-ID" = some id)
    ∧ (reqIdMissing ctx →
      lookupHeader ((Part000.HealthHandler ctx h).1).headers "X-Request-ID" = none
      ∧ lookupHeader ((Part000.JSONHealthHandler ctx h).1).headers "X-Request-ID" = none)
    ∧ (Part000.HealthHandler ctx h).2 = none
    ∧ (Part000.JSONHealthHandler ctx h).2 = none := by
  refine ⟨?_, ?_, rfl, rfl⟩
  · intro he hne
    cases hj : h.useJSON <;>
      simp [Part000.HealthHandler, Part000.JSONHealthHandler, Part000.getStatus, he, hne, hj,
        lookupHeader, setHeader, writeHeader, write, emptyWriter, List.find?, List.filter]
  · intro hm
    rcases he : ctx "request_id" with _ | v
    · cases hj : h.useJSON <;>
        simp [Part000.HealthHandler, Part000.JSONHealthHandler, Part000.getStatus, he, hj,
          lookupHeader, setHeader, writeHeader, write, emptyWriter, List.find?, List.filter]
    · cases v with
      | str s =>
          by_cases hs : s = ""
          · subst hs
            cases hj : h.useJSON <;>
              simp [Part000.HealthHandler, Part000.JSONHealthHandler, Part000.getStatus, he, hj,
                lookupHeader, setHeader, writeHeader, write, emptyWriter, List.find?, List.filter]
          · exact absurd he (hm s hs)
      | other =>
          cases hj : h.useJSON <;>
            simp [Part000.HealthHandler, Part000.JSONHealthHandler, Part000.getStatus, he, hj,
              lookupHeader, setHeader, writeHeader, write, emptyWriter, List.find?, List.filter]

/-- Claim C7, applied to a context carrying `"abc"` under
`"request_id"` and to an empty context. -/
theorem adapter_requestId_forwarding_witness :
    lookupHeader ((Part000.HealthHandler ctxWithId ⟨Up, "", false⟩).1).headers "X-Request-ID"
      = some "abc"
    ∧ lookupHeader ((Part000.HealthHandler ctxEmpty ⟨Up, "", false⟩).1).headers "X-Request-ID"
      = none
    ∧ (Part000.HealthHandler ctxEmpty ⟨Up, "", false⟩).2 = none :=
  ⟨((adapter_requestId_forwarding ctxWithId ⟨Up, "", false⟩ "abc").1 (by decide) (by decide)).1,
    ((adapter_requestId_forwarding ctxEmpty ⟨Up, "", false⟩ "abc").2.1
      (fun s _ => by simp [ctxEmpty])).1,
    (adapter_requestId_forwarding ctxEmpty ⟨Up, "", false⟩ "abc").2.2.1⟩

/-- Claim C8: health.go's `ServeHTTP` calls `WriteHeader` before it sets
`Content-Type`, so the header is never part of the transmitted response,
in either mode; part_000's `ServeHTTP` transmits `application/json` in
JSON mode (set before `WriteHeader`) but sets no `Content-Type` at all
in plain-text mode.  The claimed always-effective `Content-Type` header
fails on both files' plain handlers and on health.go's JSON mode. -/
theorem contentType_header_dropped :
    lookupHeader (HealthGo.ServeHTTP true ⟨Up, ""⟩).headers "Content-Type" = none
    ∧ lookupHeader (HealthGo.ServeHTTP false ⟨Up, ""⟩).headers "Content-Type" = none
    ∧ lookupHeader (HealthGo.ServeHTTP true ⟨Down, "x"⟩).headers "Content-Type" = none
    ∧ lookupHeader (HealthGo.ServeHTTP false ⟨Down, "x"⟩).headers "Content-Type" = none
    ∧ lookupHeader (Part000.ServeHTTP ⟨Up, "", false⟩).headers "Content-Type" = none
    ∧ lookupHeader (Part000.ServeHTTP ⟨Up, "", true⟩).headers "Content-Type"
        = some "application/json" := by
  exact ⟨by decide, by decide, by decide, by decide, by decide, by decide⟩

/-- Claim C9: calling `SetHealthy` twice leaves exactly the state of
calling it once, from every starting state, in both files. -/
theorem setHealthy_idempotent (st : HealthGo.State) (h : Part000.HState) :
    HealthGo.SetHealthy (HealthGo.SetHealthy st) = HealthGo.SetHealthy st
    ∧ Part000.SetHealthy (Part000.SetHealthy h) = Part000.SetHealthy h :=
  ⟨rfl, rfl⟩

/-- Claim C10 counterexample: the state with status `"MAINTENANCE"` is
reachable through `SetStatus` (no validation), and on it the shared
render path `getStatus` picks status code 503 while `JSONHealthHandler`
picks 200 — the two paths do not compute the same code on every
reachable state. -/
theorem statusCode_agreement_counterexample :
    Part000.GetStatus (Part000.SetStatus "MAINTENANCE" ⟨Up, "", true⟩) = "MAINTENANCE"
    ∧ (Part000.getStatus ⟨"MAINTENANCE", "", true⟩).1 = 503
    ∧ ((Part000.JSONHealthHandler ctxEmpty ⟨"MAINTENANCE", "", true⟩).1).code = 200
    ∧ (Part000.getStatus ⟨"MAINTENANCE", "", true⟩).1
        ≠ ((Part000.JSONHealthHandler ctxEmpty ⟨"MAINTENANCE", "", true⟩).1).code := by
  exact ⟨rfl, by decide, by decide, by decide⟩

/-- Claim C10 (amended): the shared render path and `JSONHealthHandler`
compute the same status code exactly on the states whose status is `Up`
or `Down` (200 for `Up`, 503 for `Down`); on every other status value
the shared path returns 503 while `JSONHealthHandler` returns 200, so
they disagree there. -/
theorem statusCode_agreement_amended (h : Part000.HState) (ctx : Part000.Ctx) :
    (Part000.getStatus h).1 = ((Part000.JSONHealthHandler ctx h).1).code
      ↔ (h.status = Up ∨ h.status = Down) := by
  rw [jsonHealthHandler_code]
  by_cases hU : h.status = "UP" <;> by_cases hD : h.status = "DOWN" <;>
    simp [Part000.getStatus, Up, Down, hU, hD]
